import Mathlib

/-!
Verification development for the `content-notify` gateway
(`telegram-bot` service): a shallow embedding of the pure logic of
`src/services/core_client.py`, `src/routes.py` and
`src/handlers/subscription.py`, with theorems settling the spec's claims.

Python strings are modelled as `String` / `List Char`.  Python's `str.split`,
`str.strip`, `int(...)` and truthiness are embedded explicitly below; `\w`
in the two URL regexes is modelled as the ASCII word characters
`[A-Za-z0-9_]` (Python's Unicode extension of `\w` is irrelevant to every
claim, and the abstraction is applied identically to the code side and the
spec side).  Network I/O is modelled by passing the outcome of each HTTP
call as an explicit argument and recording issued calls in an output list.
-/

/-! ## Python string primitives -/

/-- Whitespace recognised by Python's `str.split()` / `str.strip()`
(ASCII subset: space, tab, newline, carriage return, vertical tab,
form feed). -/
def isPySpace (c : Char) : Bool :=
  c = ' ' || c = '\t' || c = '\n' || c = '\r' || c = '\x0b' || c = '\x0c'

/-- Python `str.strip()` with no argument: drop leading and trailing
whitespace. -/
def pyStrip (l : List Char) : List Char :=
  ((l.dropWhile isPySpace).reverse.dropWhile isPySpace).reverse

/-- Worker for `pySplit`; `fuel` bounds the recursion (at least the length
of the remaining input), `acc` holds the current segment reversed. -/
def pySplitGo (sep : List Char) : Nat → List Char → List Char → List (List Char)
  | 0, s, acc => [acc.reverse ++ s]
  | fuel + 1, s, acc =>
    match s with
    | [] => [acc.reverse]
    | c :: rest =>
      if sep.isPrefixOf (c :: rest) then
        acc.reverse :: pySplitGo sep fuel ((c :: rest).drop sep.length) []
      else
        pySplitGo sep fuel rest (c :: acc)

/-- Python `s.split(sep)` for a non-empty separator `sep`. -/
def pySplit (sep : List Char) (s : List Char) : List (List Char) :=
  pySplitGo sep s.length s []

/-- Python `s.split(maxsplit=1)` (split on whitespace runs, at most once;
leading whitespace discarded; a remainder keeps its trailing whitespace). -/
def pySplitMax1 (l : List Char) : List (List Char) :=
  let l₁ := l.dropWhile isPySpace
  if l₁.isEmpty then []
  else
    let tok := l₁.takeWhile (fun c => !isPySpace c)
    let rest := (l₁.dropWhile (fun c => !isPySpace c)).dropWhile isPySpace
    if rest.isEmpty then [tok] else [tok, rest]

/-- Python `int(s)` on a string: optional surrounding whitespace, optional
sign, one or more ASCII digits (digit-group underscores are not modelled;
no claim depends on them). `none` models the `ValueError`. -/
def pyIntParse (s : String) : Option Int :=
  let l := pyStrip s.data
  let signDigits : Int × List Char :=
    match l with
    | '-' :: rest => (-1, rest)
    | '+' :: rest => (1, rest)
    | _ => (1, l)
  let digits := signDigits.2
  if digits.isEmpty || !digits.all Char.isDigit then none
  else some (signDigits.1 * Int.ofNat
    (digits.foldl (fun acc c => acc * 10 + (c.toNat - '0'.toNat)) 0))

/-- ASCII model of Python's regex class `\w`. -/
def isWordChar (c : Char) : Bool := c.isAlpha || c.isDigit || c = '_'

/-- A character matched by the regex class `[\w-]`. -/
def wordHyphen (c : Char) : Bool := isWordChar c || c = '-'

/-! ## `src/services/core_client.py` -/

/-- `CoreAPIError(message, status_code)` — the structured backend failure
(the spec's `BackendError`). -/
structure CoreAPIError where
  message : String
  status_code : Option Nat
deriving DecidableEq, Repr

/-- `CoreClient._handle_http_error`.  `body` models the JSON error body of
the non-2xx response: `none` when `response.json()` fails (or the body is
not an object, so that `.get` raises), `some none` when it is an object
without a `"message"` field, `some (some m)` when it carries message `m`.
Returns the `CoreAPIError` the method raises. -/
def handle_http_error (status : Nat) (body : Option (Option String)) : CoreAPIError :=
  let error_message :=
    match body with
    | some (some m) => m
    | some none => "Unknown error"
    | none => s!"HTTP {status} error"
  if status = 400 then ⟨error_message, some status⟩
  else if status = 404 then ⟨"Resource not found", some status⟩
  else if status = 409 then ⟨error_message, some status⟩
  else if 500 ≤ status then
    ⟨"System is temporarily unavailable, please try again later", some status⟩
  else ⟨error_message, some status⟩

/-- The exceptions that can escape the `try` block of each `CoreClient`
method. -/
inductive PyExc where
  | clientResponseError (status : Nat) (body : Option (Option String))
  | clientError
  | coreAPIError (e : CoreAPIError)
  | otherError
deriving DecidableEq

/-- The `except` chain shared by the four `CoreClient` methods:
`ClientResponseError` goes to `_handle_http_error`; `ClientError` becomes
the fixed temporarily-unavailable error; anything else — including a
`CoreAPIError` raised inside the `try` block — is caught by the trailing
`except Exception` and replaced by the generic error. -/
def handleOpFailure (e : PyExc) : CoreAPIError :=
  match e with
  | .clientResponseError status body => handle_http_error status body
  | .clientError => ⟨"System is temporarily unavailable, please try again later", none⟩
  | .coreAPIError _ => ⟨"An unexpected error occurred", none⟩
  | .otherError => ⟨"An unexpected error occurred", none⟩

/-- Outcome of the HTTP POST issued by `register_user`: a 2xx response
carrying the (possibly absent or empty) `accountId` field, or an
exception. -/
inductive RegisterOutcome where
  | success (accountId : Option String)
  | failure (e : PyExc)
deriving DecidableEq

/-- The `try` block of `register_user`: on a 2xx response a falsy
`accountId` (absent field, JSON null, or empty string — all modelled by
`none` / `some ""`) raises `CoreAPIError("Missing accountId in response")`
inside the block.  The `UUID` constructor is modelled as the identity on
the string. -/
def register_user_try (o : RegisterOutcome) : Except PyExc String :=
  match o with
  | .success accountId =>
    match accountId with
    | none => .error (.coreAPIError ⟨"Missing accountId in response", none⟩)
    | some s =>
      if s = "" then .error (.coreAPIError ⟨"Missing accountId in response", none⟩)
      else .ok s
  | .failure e => .error e

/-- `CoreClient.register_user`: the `try` block wrapped in the shared
`except` chain. -/
def register_user (o : RegisterOutcome) : Except CoreAPIError String :=
  match register_user_try o with
  | .ok v => .ok v
  | .error e => .error (handleOpFailure e)

/-! ## `src/routes.py` -/

/-- A JSON value as relevant to the relay body fields. -/
inductive JVal where
  | jnum (n : Int)
  | jstr (s : String)
  | jbool (b : Bool)
  | jnull
deriving DecidableEq, Repr

/-- Python truthiness of a JSON-decoded value (`0`, `""`, `False`, `None`
are falsy). -/
def jTruthy : JVal → Bool
  | .jnum n => n ≠ 0
  | .jstr s => s ≠ ""
  | .jbool b => b
  | .jnull => false

/-- Python `int(...)` applied to a JSON-decoded value; `none` models
`ValueError` / `TypeError`. -/
def jToInt : JVal → Option Int
  | .jnum n => some n
  | .jstr s => pyIntParse s
  | .jbool b => some (if b then 1 else 0)
  | .jnull => none

/-- The parsed JSON body of a relay request; each field is `none` when the
key is absent. -/
structure RelayBody where
  chatId : Option JVal
  message : Option JVal
deriving DecidableEq

/-- One inbound `POST /internal/send` request together with the
environment it runs in: the configured secret (`none` when unset), the
`X-Internal-Service-Key` header, the request body (`none` when JSON
parsing fails) and the outcome of `bot.send_message`
(`none` = success, `some err` = the exception's text). -/
structure RelayRequest where
  configuredKey : Option String
  header : Option String
  body : Option RelayBody
  sendError : Option String
deriving DecidableEq

/-- The HTTP response of `handle_notification` plus the list of transport
send invocations (chat id, message) it performed. -/
structure RelayResponse where
  status : Nat
  payload : String
  sends : List (Int × JVal)
deriving DecidableEq, Repr

/-- `not settings.internal_service_key` in `handle_notification`:
pydantic's `SecretStr` defines `__len__`, so `None` and an empty secret
are both falsy — the instance counts as unconfigured in either case. -/
def secretConfigured : Option String → Bool
  | none => false
  | some s => s ≠ ""

/-- `handle_notification` from `src/routes.py`, as a pure function of the
request and its environment. -/
def handle_notification (r : RelayRequest) : RelayResponse :=
  if !secretConfigured r.configuredKey then
    ⟨500, "Internal service authentication not configured", []⟩
  else
    let expected := r.configuredKey.getD ""
    let authFail : Bool :=
      match r.header with
      | none => true
      | some h => (h == "") || (h != expected)
    if authFail then ⟨403, "Forbidden: Invalid authentication key", []⟩
    else
      match r.body with
      | none => ⟨400, "Invalid JSON body", []⟩
      | some b =>
        match b.chatId with
        | none => ⟨400, "Missing required field: chatId", []⟩
        | some cv =>
          if !jTruthy cv then ⟨400, "Missing required field: chatId", []⟩
          else
            match b.message with
            | none => ⟨400, "Missing required field: message", []⟩
            | some mv =>
              if !jTruthy mv then ⟨400, "Missing required field: message", []⟩
              else
                match jToInt cv with
                | none => ⟨400, "Invalid chatId format: must be numeric", []⟩
                | some cid =>
                  match r.sendError with
                  | none => ⟨200, "success", [(cid, mv)]⟩
                  | some err => ⟨500, "Failed to send message: " ++ err, [(cid, mv)]⟩

/-! ## `src/handlers/subscription.py` -/

/-- The four alternatives of the anchored regex
`^https?://(www\.)?youtube\.com/@[\w-]+$` up to the handle. -/
def ytPres : List String :=
  ["https://www.youtube.com/@", "https://youtube.com/@",
   "http://www.youtube.com/@", "http://youtube.com/@"]

/-- The four alternatives of the anchored regex
`^https?://(www\.)?twitch\.tv/[\w-]+$` up to the handle. -/
def twPres : List String :=
  ["https://www.twitch.tv/", "https://twitch.tv/",
   "http://www.twitch.tv/", "http://twitch.tv/"]

/-- `[\w-]+` on the remainder of the string. -/
def handleOk (h : List Char) : Bool := !h.isEmpty && h.all wordHyphen

/-- `[\w-]+$` in Python `re`: the `$` anchor matches at the end of the
string or just before a single trailing newline. -/
def tailMatch (rest : List Char) : Bool :=
  handleOk rest ||
  (match rest.getLast? with
   | some c => c = '\n' && handleOk rest.dropLast
   | none => false)

/-- `re.match` of one expanded alternative against the whole string. -/
def reMatchOne (p : String) (l : List Char) : Bool :=
  p.data.isPrefixOf l && tailMatch (l.drop p.data.length)

/-- `bool(YOUTUBE_PATTERN.match(url))`. -/
def youtubeMatch (l : List Char) : Bool := ytPres.any (fun p => reMatchOne p l)

/-- `bool(TWITCH_PATTERN.match(url))`. -/
def twitchMatch (l : List Char) : Bool := twPres.any (fun p => reMatchOne p l)

/-- `validate_url` from `src/handlers/subscription.py`. -/
def validate_url (url : String) : Bool :=
  youtubeMatch url.data || twitchMatch url.data

/-- Python's substring test `sub in s`. -/
def containsSub (sub : List Char) : List Char → Bool
  | [] => sub.isEmpty
  | c :: rest => sub.isPrefixOf (c :: rest) || containsSub sub rest

/-- `extract_channel_name` from `src/handlers/subscription.py`:
`'@' + url.split('@')[1]` when the URL contains `'@'`, else
`url.split('/tv/')[1]` when it contains `'/tv/'`, else the URL itself.
The indexing `[1]` is defaulted, which is faithful because each branch is
guarded by the corresponding containment test. -/
def extract_channel_name (url : String) : String :=
  if url.data.contains '@' then
    String.mk ('@' :: (pySplit ['@'] url.data).getD 1 [])
  else if containsSub ("/tv/" : String).data url.data then
    String.mk ((pySplit ("/tv/" : String).data url.data).getD 1 [])
  else url

/-- The module-level `user_accounts: dict[int, UUID]` cache, modelled as an
association list from Telegram id to account id (first binding wins on
lookup, as a dict with overwrite-on-insert). -/
abbrev Cache := List (Int × String)

/-- One network call issued through `CoreClient`. -/
inductive NetCall where
  | register (tid : Int) (username : Option String)
  | addSub (account : String) (url : String)
  | getSubs (account : String)
  | delSub (sid : Int) (account : String)
deriving DecidableEq, Repr

/-- `get_or_create_account`: read-through cache over `register_user`.
`reg` is the outcome `register_user` would produce if called; the result
is (returned value or raised error, cache afterwards, calls issued). -/
def get_or_create_account (tid : Int) (username : Option String) (cache : Cache)
    (reg : Except CoreAPIError String) :
    Except CoreAPIError String × Cache × List NetCall :=
  match cache.lookup tid with
  | some a => (.ok a, cache, [])
  | none =>
    match reg with
    | .ok a => (.ok a, (tid, a) :: cache, [.register tid username])
    | .error e => (.error e, cache, [.register tid username])

/-- The `/add` usage reply. -/
def addUsageMsg : String :=
  "❌ <b>Usage:</b> /add &lt;url&gt;\n\n<b>Examples:</b>\n• /add https://www.youtube.com/@MrBeast\n• /add https://www.twitch.tv/shroud"

/-- The `/add` invalid-URL reply. -/
def invalidUrlMsg : String :=
  "❌ <b>Invalid URL format!</b>\n\nSupported formats:\n• YouTube: https://www.youtube.com/@username\n• Twitch: https://www.twitch.tv/username"

/-- The `/add` 409 reply. -/
def alreadySubscribedMsg : String :=
  "⚠️ <b>Already subscribed!</b>\n\nYou\x27re already following this channel."

/-- The generic temporarily-unavailable reply. -/
def genericUnavailableMsg : String :=
  "❌ <b>Error:</b> System is temporarily unavailable. Please try again later."

/-- The `/add` success reply. -/
def addSuccessMsg (platform name url : String) : String :=
  "✅ <b>Subscription added!</b>\n\n📺 Platform: <b>" ++ platform ++
    "</b>\n👤 Channel: <b>" ++ name ++ "</b>\n🔗 <a href=\x27" ++ url ++
    "\x27>View Channel</a>"

/-- The `except CoreAPIError` branch of `cmd_add`. -/
def renderAddError (e : CoreAPIError) : String :=
  if e.status_code = some 409 then alreadySubscribedMsg
  else if e.status_code = some 400 then "❌ <b>Invalid request:</b> " ++ e.message
  else genericUnavailableMsg

/-- `message.text.split(maxsplit=1) if message.text else []`. -/
def cmdArgs (text : Option String) : List (List Char) :=
  match text with
  | none => []
  | some t => if t = "" then [] else pySplitMax1 t.data

/-- `args[1].strip()` (as a `String`). -/
def argStr (args : List (List Char)) : String := String.mk (pyStrip (args.getD 1 []))

/-- The observable outcome of one command handler invocation: the replies
sent to the user, the cache afterwards, and the network calls issued. -/
structure CmdOut where
  replies : List String
  cache : Cache
  calls : List NetCall
deriving DecidableEq, Repr

/-- `cmd_add` from `src/handlers/subscription.py`.  `text` is
`message.text`; `reg` is the outcome of `register_user` were it to be
called; `addR` is the outcome of `add_subscription` were it to be called,
its success value being the response's `platform` field
(`result.get('platform', 'Unknown')` is all the handler reads). -/
def cmd_add (text : Option String) (tid : Int) (username : Option String) (cache : Cache)
    (reg : Except CoreAPIError String) (addR : Except CoreAPIError (Option String)) :
    CmdOut :=
  let args := cmdArgs text
  if args.length < 2 then ⟨[addUsageMsg], cache, []⟩
  else
    let url := argStr args
    if !validate_url url then ⟨[invalidUrlMsg], cache, []⟩
    else
      match get_or_create_account tid username cache reg with
      | (.error e, c, calls) => ⟨[renderAddError e], c, calls⟩
      | (.ok account, c, calls) =>
        match addR with
        | .ok platformField =>
          ⟨[addSuccessMsg (platformField.getD "Unknown") (extract_channel_name url) url],
            c, calls ++ [.addSub account url]⟩
        | .error e => ⟨[renderAddError e], c, calls ++ [.addSub account url]⟩

/-- One record of the backend's `GET /subscriptions` response; each field
is `none` when the key is absent from the JSON object. -/
structure SubRecord where
  platform : Option String
  channelUrl : Option String
  id : Option Int
deriving DecidableEq, Repr

/-- `sub.get('id', '')` as rendered into the list block. -/
def subIdStr (sub : SubRecord) : String :=
  match sub.id with
  | some n => toString n
  | none => ""

/-- Middle of the f-string block `cmd_list` renders for one record:
everything between the 1-based index and the backend identifier. -/
def blockMid (sub : SubRecord) : String :=
  let platform := sub.platform.getD "Unknown"
  let url := sub.channelUrl.getD ""
  let emoji := if platform = "YOUTUBE" then "📺" else "🎮"
  emoji ++ " <b>" ++ extract_channel_name url ++ "</b>\n   Platform: " ++ platform ++
    "\n   <a href=\x27" ++ url ++ "\x27>View Channel</a>\n   "

/-- The f-string block `cmd_list` renders for one record at 1-based index
`idx`. -/
def formatListBlock (idx : Nat) (sub : SubRecord) : String :=
  (toString idx ++ ". ") ++
    (blockMid sub ++ ("ID: <code>" ++ subIdStr sub ++ "</code>") ++ "\n")

/-- `for idx, sub in enumerate(subscriptions, start=1)`: the list of
rendered blocks starting at index `start`. -/
def listBlocks : Nat → List SubRecord → List String
  | _, [] => []
  | idx, sub :: rest => formatListBlock idx sub :: listBlocks (idx + 1) rest

/-- The header line of the populated `/list` reply. -/
def listHeaderMsg : String := "📋 <b>Your Subscriptions:</b>\n"

/-- The footer of the populated `/list` reply. -/
def listFooterMsg (n : Nat) : String :=
  "\n<b>Total:</b> " ++ toString n ++
    " subscription(s)\n\nTo remove a subscription, use:\n/remove &lt;id&gt;"

/-- The empty-`/list` onboarding reply. -/
def onboardingMsg : String :=
  "📭 <b>No subscriptions yet!</b>\n\nAdd your first subscription with:\n/add &lt;channel_url&gt;"

/-- `cmd_list` from `src/handlers/subscription.py`.  `listR` is the
outcome of `get_subscriptions` were it to be called. -/
def cmd_list (tid : Int) (username : Option String) (cache : Cache)
    (reg : Except CoreAPIError String) (listR : Except CoreAPIError (List SubRecord)) :
    CmdOut :=
  match get_or_create_account tid username cache reg with
  | (.error _, c, calls) => ⟨[genericUnavailableMsg], c, calls⟩
  | (.ok account, c, calls) =>
    match listR with
    | .error _ => ⟨[genericUnavailableMsg], c, calls ++ [.getSubs account]⟩
    | .ok subs =>
      if subs.isEmpty then ⟨[onboardingMsg], c, calls ++ [.getSubs account]⟩
      else
        ⟨[String.join (listHeaderMsg :: listBlocks 1 subs ++ [listFooterMsg subs.length])],
          c, calls ++ [.getSubs account]⟩

/-- The `/remove` usage reply. -/
def removeUsageMsg : String :=
  "❌ <b>Usage:</b> /remove &lt;id&gt;\n\nGet subscription IDs with /list"

/-- The `/remove` non-numeric-id reply. -/
def invalidIdMsg : String :=
  "❌ <b>Invalid ID!</b>\n\nSubscription ID must be a number.\nUse /list to see your subscription IDs."

/-- The `/remove` 404 reply. -/
def notFoundMsg : String :=
  "❌ <b>Subscription not found!</b>\n\nThis subscription doesn\x27t exist or you don\x27t have access to it.\nUse /list to see your active subscriptions."

/-- The `/remove` success reply. -/
def removedMsg (sid : Int) : String :=
  "✅ <b>Subscription removed!</b>\n\nSubscription ID <code>" ++ toString sid ++
    "</code> has been deleted.\n\nView your remaining subscriptions with /list"

/-- The `except CoreAPIError` branch of `cmd_remove`. -/
def renderRemoveError (e : CoreAPIError) : String :=
  if e.status_code = some 404 then notFoundMsg else genericUnavailableMsg

/-- `cmd_remove` from `src/handlers/subscription.py`.  `delR` is the
outcome of `delete_subscription` were it to be called. -/
def cmd_remove (text : Option String) (tid : Int) (username : Option String) (cache : Cache)
    (reg : Except CoreAPIError String) (delR : Except CoreAPIError Unit) : CmdOut :=
  let args := cmdArgs text
  if args.length < 2 then ⟨[removeUsageMsg], cache, []⟩
  else
    match pyIntParse (argStr args) with
    | none => ⟨[invalidIdMsg], cache, []⟩
    | some sid =>
      match get_or_create_account tid username cache reg with
      | (.error e, c, calls) => ⟨[renderRemoveError e], c, calls⟩
      | (.ok account, c, calls) =>
        match delR with
        | .ok _ => ⟨[removedMsg sid], c, calls ++ [.delSub sid account]⟩
        | .error e => ⟨[renderRemoveError e], c, calls ++ [.delSub sid account]⟩

/-! ## Spec-side definitions (for refinement claims) -/

/-- The eight full expansions of the spec's two URL shapes
`https?://(www.)?youtube.com/@<handle>` and
`https?://(www.)?twitch.tv/<handle>` up to the handle, written from the
spec's words. -/
def spec_shapes : List String :=
  ["https://www.youtube.com/@", "https://youtube.com/@",
   "http://www.youtube.com/@", "http://youtube.com/@",
   "https://www.twitch.tv/", "https://twitch.tv/",
   "http://www.twitch.tv/", "http://twitch.tv/"]

/-- The spec's acceptance predicate for C8: the string is one of the two
fixed shapes followed by a non-empty handle of word/hyphen characters, and
nothing else. -/
def spec_shape (s : String) : Prop :=
  ∃ p h, p ∈ spec_shapes ∧ s.data = p.data ++ h ∧ h ≠ [] ∧ ∀ c ∈ h, wordHyphen c = true

/-- Executable form of `spec_shape`. -/
def spec_shapeB (s : String) : Bool :=
  spec_shapes.any (fun p => p.data.isPrefixOf s.data && handleOk (s.data.drop p.data.length))

/-! ## General helper lemmas -/

deriving instance DecidableEq for Except

theorem str_data_append (a b : String) : (a ++ b).data = a.data ++ b.data := by
  cases a; cases b; rfl

theorem strAppend_assoc (a b c : String) : a ++ b ++ c = a ++ (b ++ c) := by
  cases a; cases b; cases c
  show String.mk _ = String.mk _
  rw [List.append_assoc]

theorem strEmpty_append (a : String) : "" ++ a = a := by
  cases a; rfl

theorem strAppend_empty (a : String) : a ++ "" = a := by
  cases a
  show String.mk _ = String.mk _
  rw [List.append_nil]

theorem strFoldl_append (l : List String) :
    ∀ a : String, l.foldl (fun r s => r ++ s) a = a ++ l.foldl (fun r s => r ++ s) "" := by
  induction l with
  | nil => intro a; simp [List.foldl, strAppend_empty]
  | cons b t ih =>
    intro a
    simp only [List.foldl]
    rw [ih (a ++ b), ih ("" ++ b), strEmpty_append, strAppend_assoc]

theorem strJoin_cons (a : String) (l : List String) :
    String.join (a :: l) = a ++ String.join l := by
  show (a :: l).foldl (fun r s => r ++ s) "" = a ++ l.foldl (fun r s => r ++ s) ""
  simp only [List.foldl]
  rw [strFoldl_append l ("" ++ a), strEmpty_append]

/-! ## Theorems for the claims -/

/-- C1 (counterexample): the claim says that when the error body has no
parseable `message` field, the raised message is synthesized from the
status code alone.  At status 400 with a body that parses as an object
without a `message` field, the raised message is the fixed
`"Unknown error"`, which differs from the status-synthesized message the
same mapping produces when the body cannot be parsed at all. -/
theorem C1_counterexample :
    handle_http_error 400 (some none) = ⟨"Unknown error", some 400⟩ ∧
    (handle_http_error 400 none).message = "HTTP 400 error" ∧
    (handle_http_error 400 (some none)).message ≠ (handle_http_error 400 none).message := by
  exact ⟨by decide, by decide, by decide⟩

/-- C1 (amended): for every non-2xx response, the error mapping raises a
`CoreAPIError` classified by status — 400 body message verbatim, 404 fixed
"Resource not found", 409 verbatim, ≥500 fixed temporarily-unavailable,
any other status verbatim; when the body cannot be parsed as a JSON
object the message is synthesized from the status code alone
(`"HTTP {status} error"`), while a parsed object without a `message`
field yields the fixed fallback `"Unknown error"`; a network failure with
no response yields the fixed temporarily-unavailable message. -/
theorem C1_amended_error_mapping :
    ∀ (st : Nat) (m : String) (body : Option (Option String)),
    (handleOpFailure (.clientResponseError 400 (some (some m))) = ⟨m, some 400⟩) ∧
    (handleOpFailure (.clientResponseError 404 body) = ⟨"Resource not found", some 404⟩) ∧
    (handleOpFailure (.clientResponseError 409 (some (some m))) = ⟨m, some 409⟩) ∧
    (500 ≤ st → handleOpFailure (.clientResponseError st body) =
      ⟨"System is temporarily unavailable, please try again later", some st⟩) ∧
    (st ≠ 400 → st ≠ 404 → st ≠ 409 → st < 500 →
      handleOpFailure (.clientResponseError st (some (some m))) = ⟨m, some st⟩) ∧
    (st ≠ 404 → st < 500 →
      handleOpFailure (.clientResponseError st none) = ⟨s!"HTTP {st} error", some st⟩) ∧
    (st ≠ 404 → st < 500 →
      handleOpFailure (.clientResponseError st (some none)) = ⟨"Unknown error", some st⟩) ∧
    (handleOpFailure .clientError =
      ⟨"System is temporarily unavailable, please try again later", none⟩) := by
  intro st m body
  refine ⟨by simp [handleOpFailure, handle_http_error],
          by simp [handleOpFailure, handle_http_error],
          by simp [handleOpFailure, handle_http_error],
          ?_, ?_, ?_, ?_, by simp [handleOpFailure]⟩
  · intro h
    have h1 : st ≠ 400 := by omega
    have h2 : st ≠ 404 := by omega
    have h3 : st ≠ 409 := by omega
    simp [handleOpFailure, handle_http_error, h, h1, h2, h3]
  · intro h1 h2 h3 h4
    have h5 : ¬ 500 ≤ st := by omega
    simp [handleOpFailure, handle_http_error, h1, h2, h3, h5]
  · intro h2 h4
    have h5 : ¬ 500 ≤ st := by omega
    by_cases h1 : st = 400
    · subst h1; simp [handleOpFailure, handle_http_error]
    · by_cases h3 : st = 409
      · subst h3; simp [handleOpFailure, handle_http_error]
      · simp [handleOpFailure, handle_http_error, h1, h2, h3, h5]
  · intro h2 h4
    have h5 : ¬ 500 ≤ st := by omega
    by_cases h1 : st = 400
    · subst h1; simp [handleOpFailure, handle_http_error]
    · by_cases h3 : st = 409
      · subst h3; simp [handleOpFailure, handle_http_error]
      · simp [handleOpFailure, handle_http_error, h1, h2, h3, h5]

/-- C1 (witness): the amended mapping evaluated at concrete inputs. -/
theorem C1_witness :
    handleOpFailure (.clientResponseError 503 (some (some "boom"))) =
      ⟨"System is temporarily unavailable, please try again later", some 503⟩ ∧
    handleOpFailure (.clientResponseError 418 (some (some "teapot"))) = ⟨"teapot", some 418⟩ ∧
    handleOpFailure (.clientResponseError 418 none) = ⟨"HTTP 418 error", some 418⟩ := by
  refine ⟨(C1_amended_error_mapping 503 "boom" (some (some "boom"))).2.2.2.1 (by decide),
          (C1_amended_error_mapping 418 "teapot" none).2.2.2.2.1
            (by decide) (by decide) (by decide) (by decide),
          ?_⟩
  have h := (C1_amended_error_mapping 418 "teapot" none).2.2.2.2.2.1
    (by decide) (by decide)
  exact h

/-- C9 (confirmed): a 2xx registration response whose `accountId` is
absent or falsy makes `register_user` raise, but the `CoreAPIError` that
propagates carries the generic message `"An unexpected error occurred"`
with no status code: the specific `"Missing accountId in response"` error
raised inside the `try` block is intercepted by the same function's
`except Exception` handler and replaced. -/
theorem C9_register_catchall :
    ∀ aid : Option String, (aid = none ∨ aid = some "") →
    register_user (.success aid) = .error ⟨"An unexpected error occurred", none⟩ ∧
    register_user (.success aid) ≠ .error ⟨"Missing accountId in response", none⟩ := by
  intro aid h
  rcases h with rfl | rfl
  · exact ⟨by decide, by decide⟩
  · exact ⟨by decide, by decide⟩

/-- C9 (witness): the absent-`accountId` case evaluated concretely. -/
theorem C9_witness :
    register_user (.success none) = .error ⟨"An unexpected error occurred", none⟩ :=
  (C9_register_catchall none (Or.inl rfl)).1

/-- C3 (confirmed): for an external identity not yet cached, two
sequential `get_or_create_account` calls issue exactly one registration
call in total, both return the same account identity, and the cache state
produced by the first call is left entirely unchanged (no eviction, no
update) by the second call, whatever the second call's backend would have
answered. -/
theorem C3_resolve_once :
    ∀ (tid : Int) (u : Option String) (cache : Cache) (a : String)
      (reg2 : Except CoreAPIError String),
    cache.lookup tid = none →
    (get_or_create_account tid u cache (.ok a)).1 = .ok a ∧
    (get_or_create_account tid u cache (.ok a)).2.2 = [.register tid u] ∧
    (get_or_create_account tid u (get_or_create_account tid u cache (.ok a)).2.1 reg2).1 =
      .ok a ∧
    (get_or_create_account tid u (get_or_create_account tid u cache (.ok a)).2.1 reg2).2.2 =
      [] ∧
    (get_or_create_account tid u (get_or_create_account tid u cache (.ok a)).2.1 reg2).2.1 =
      (get_or_create_account tid u cache (.ok a)).2.1 ∧
    ((get_or_create_account tid u cache (.ok a)).2.2 ++
      (get_or_create_account tid u (get_or_create_account tid u cache (.ok a)).2.1 reg2).2.2).length
      = 1 := by
  intro tid u cache a reg2 h
  simp [get_or_create_account, h, List.lookup]

/-- C3 (witness): a concrete first-contact double resolve. -/
theorem C3_witness :
    (get_or_create_account 7 (some "bob") [] (.ok "acc-1")).1 = .ok "acc-1" ∧
    (get_or_create_account 7 (some "bob")
      (get_or_create_account 7 (some "bob") [] (.ok "acc-1")).2.1
      (.error ⟨"down", none⟩)).1 = .ok "acc-1" ∧
    (get_or_create_account 7 (some "bob")
      (get_or_create_account 7 (some "bob") [] (.ok "acc-1")).2.1
      (.error ⟨"down", none⟩)).2.2 = [] := by
  have h := C3_resolve_once 7 (some "bob") [] "acc-1" (.error ⟨"down", none⟩) (by decide)
  exact ⟨h.1, h.2.2.1, h.2.2.2.1⟩

/-- C2 (confirmed): for every relay request — with no secret configured
(`None`, or empty: pydantic's `SecretStr` is falsy when empty) the
response is 500 with zero transport sends; with a secret configured but
the header absent or different from it, 403 with zero sends; with the
header exactly equal to the configured secret and a well-formed body
(parseable JSON, truthy `chatId` coercible to an integer, truthy
`message`) and a healthy transport, 200 with exactly one send carrying
the given chat identifier and message. -/
theorem C2_relay_auth :
    ∀ (r : RelayRequest) (k : String) (b : RelayBody) (cv mv : JVal) (cid : Int),
    (secretConfigured r.configuredKey = false →
      handle_notification r = ⟨500, "Internal service authentication not configured", []⟩) ∧
    (r.configuredKey = some k → k ≠ "" → (∀ h, r.header = some h → h ≠ k) →
      handle_notification r = ⟨403, "Forbidden: Invalid authentication key", []⟩) ∧
    (r.configuredKey = some k → k ≠ "" → r.header = some k →
      r.body = some b → b.chatId = some cv → jTruthy cv = true →
      b.message = some mv → jTruthy mv = true → jToInt cv = some cid →
      r.sendError = none →
      handle_notification r = ⟨200, "success", [(cid, mv)]⟩) := by
  intro r k b cv mv cid
  obtain ⟨ck, hd, bd, se⟩ := r
  refine ⟨?_, ?_, ?_⟩
  · intro h
    simp only [handle_notification, h]
    rfl
  · intro hck hk hhdr
    subst hck
    have hcfg : secretConfigured (some k) = true := by simp [secretConfigured, hk]
    cases hd with
    | none => simp [handle_notification, hcfg]
    | some h =>
      have hne : h ≠ k := hhdr h rfl
      simp [handle_notification, hcfg, hne]
  · intro hck hk hhdr hbd hcv htcv hmv htmv hint hse
    subst hck; subst hhdr; subst hbd; subst hse
    have hcfg : secretConfigured (some k) = true := by simp [secretConfigured, hk]
    simp [handle_notification, hcfg, hk, hcv, htcv, hmv, htmv, hint]

/-- C2 (witness): the three branches at concrete requests. -/
theorem C2_witness :
    handle_notification ⟨none, some "k", some ⟨some (.jnum 5), some (.jstr "hi")⟩, none⟩ =
      ⟨500, "Internal service authentication not configured", []⟩ ∧
    handle_notification ⟨some "s3cret", some "wrong",
        some ⟨some (.jnum 5), some (.jstr "hi")⟩, none⟩ =
      ⟨403, "Forbidden: Invalid authentication key", []⟩ ∧
    handle_notification ⟨some "s3cret", some "s3cret",
        some ⟨some (.jstr "42"), some (.jstr "hi")⟩, none⟩ =
      ⟨200, "success", [(42, .jstr "hi")]⟩ := by
  refine ⟨(C2_relay_auth ⟨none, some "k", some ⟨some (.jnum 5), some (.jstr "hi")⟩, none⟩
            "k" ⟨none, none⟩ .jnull .jnull 0).1 (by decide),
          (C2_relay_auth ⟨some "s3cret", some "wrong",
              some ⟨some (.jnum 5), some (.jstr "hi")⟩, none⟩
            "s3cret" ⟨none, none⟩ .jnull .jnull 0).2.1 rfl (by decide) ?_,
          (C2_relay_auth ⟨some "s3cret", some "s3cret",
              some ⟨some (.jstr "42"), some (.jstr "hi")⟩, none⟩
            "s3cret" ⟨some (.jstr "42"), some (.jstr "hi")⟩ (.jstr "42") (.jstr "hi") 42).2.2
            rfl (by decide) rfl rfl rfl (by decide) rfl (by decide) (by decide) rfl⟩
  intro h hh
  injection hh with hh'
  subst hh'
  decide

/-- C10 (confirmed): on an authenticated relay request whose JSON body has
`chatId` equal to the number 0, the endpoint answers 400 with the
missing-`chatId` error and performs zero sends (the presence check uses
truthiness, so the numeric-coercion step is never reached for 0); with a
truthy `chatId` and `message` equal to the empty string, it answers 400
with the missing-`message` error and zero sends. -/
theorem C10_falsy_fields :
    ∀ (r : RelayRequest) (k : String) (b : RelayBody) (cv : JVal),
    r.configuredKey = some k → k ≠ "" → r.header = some k → r.body = some b →
    (b.chatId = some (.jnum 0) →
      handle_notification r = ⟨400, "Missing required field: chatId", []⟩) ∧
    (b.chatId = some cv → jTruthy cv = true → b.message = some (.jstr "") →
      handle_notification r = ⟨400, "Missing required field: message", []⟩) := by
  intro r k b cv hck hk hhdr hbd
  obtain ⟨ck, hd, bd, se⟩ := r
  subst hck; subst hhdr; subst hbd
  have hcfg : secretConfigured (some k) = true := by simp [secretConfigured, hk]
  constructor
  · intro hcv
    simp [handle_notification, hcfg, hk, hcv, jTruthy]
  · intro hcv htcv hmv
    have hms : jTruthy (.jstr "") = false := by decide
    simp [handle_notification, hcfg, hk, hcv, htcv, hmv, hms]

/-- C10 (witness): `chatId = 0` and `message = ""` at a concrete request. -/
theorem C10_witness :
    handle_notification ⟨some "k", some "k", some ⟨some (.jnum 0), some (.jstr "hi")⟩, none⟩ =
      ⟨400, "Missing required field: chatId", []⟩ ∧
    handle_notification ⟨some "k", some "k", some ⟨some (.jnum 5), some (.jstr "")⟩, none⟩ =
      ⟨400, "Missing required field: message", []⟩ :=
  ⟨(C10_falsy_fields ⟨some "k", some "k", some ⟨some (.jnum 0), some (.jstr "hi")⟩, none⟩
      "k" ⟨some (.jnum 0), some (.jstr "hi")⟩ .jnull rfl (by decide) rfl rfl).1 rfl,
   (C10_falsy_fields ⟨some "k", some "k", some ⟨some (.jnum 5), some (.jstr "")⟩, none⟩
      "k" ⟨some (.jnum 5), some (.jstr "")⟩ (.jnum 5) rfl (by decide) rfl rfl).2
      rfl (by decide) rfl⟩

/-- C5 (confirmed): when a backend call fails with a `CoreAPIError`, the
command handlers render it by status: on `/add` a 409 renders the
"already subscribed" branch (distinct from the generic failure branch);
on `/remove` a 404 renders the specific "not found or not yours" branch,
while any other status (e.g. 500) renders the generic
temporarily-unavailable message. -/
theorem C5_error_rendering :
    ∀ (textA textR : Option String) (tid : Int) (u : Option String) (cache : Cache)
      (a : String) (reg : Except CoreAPIError String) (m1 m2 m3 : String) (st : Nat),
    cache.lookup tid = some a →
    ¬(cmdArgs textA).length < 2 →
    validate_url (argStr (cmdArgs textA)) = true →
    ¬(cmdArgs textR).length < 2 →
    (∃ sid, pyIntParse (argStr (cmdArgs textR)) = some sid) →
    st ≠ 404 →
    (cmd_add textA tid u cache reg (.error ⟨m1, some 409⟩)).replies =
      [alreadySubscribedMsg] ∧
    alreadySubscribedMsg ≠ genericUnavailableMsg ∧
    (cmd_remove textR tid u cache reg (.error ⟨m2, some 404⟩)).replies = [notFoundMsg] ∧
    (cmd_remove textR tid u cache reg (.error ⟨m3, some st⟩)).replies =
      [genericUnavailableMsg] := by
  intro textA textR tid u cache a reg m1 m2 m3 st hlook hA2 hAv hR2 hEx hst
  obtain ⟨sid, hsid⟩ := hEx
  refine ⟨?_, by decide, ?_, ?_⟩
  · simp [cmd_add, hA2, hAv, get_or_create_account, hlook, renderAddError]
  · simp [cmd_remove, hR2, hsid, get_or_create_account, hlook, renderRemoveError]
  · simp [cmd_remove, hR2, hsid, get_or_create_account, hlook, renderRemoveError, hst]

/-- C5 (witness): the three renderings at concrete inputs. -/
theorem C5_witness :
    (cmd_add (some "/add https://www.youtube.com/@MrBeast") 7 none [(7, "a0")]
      (.error ⟨"x", none⟩) (.error ⟨"dup", some 409⟩)).replies = [alreadySubscribedMsg] ∧
    (cmd_remove (some "/remove 3") 7 none [(7, "a0")]
      (.error ⟨"x", none⟩) (.error ⟨"nf", some 404⟩)).replies = [notFoundMsg] ∧
    (cmd_remove (some "/remove 3") 7 none [(7, "a0")]
      (.error ⟨"x", none⟩) (.error ⟨"down", some 500⟩)).replies =
      [genericUnavailableMsg] := by
  have h := C5_error_rendering (some "/add https://www.youtube.com/@MrBeast")
    (some "/remove 3") 7 none [(7, "a0")] "a0" (.error ⟨"x", none⟩) "dup" "nf" "down" 500
    (by decide) (by decide) (by decide) (by decide) ⟨3, by decide⟩ (by decide)
  exact ⟨h.1, h.2.2.1, h.2.2.2⟩

/-- C6 (confirmed): an `/add` invocation with a missing argument or an
argument failing URL validation, and a `/remove` invocation with a
missing argument or an argument not parseable as an integer, reply with
the usage/format message, issue no network call (neither registration nor
any backend operation), and leave the identity cache unchanged. -/
theorem C6_malformed_no_network :
    ∀ (text : Option String) (tid : Int) (u : Option String) (cache : Cache)
      (reg : Except CoreAPIError String) (addR : Except CoreAPIError (Option String))
      (delR : Except CoreAPIError Unit),
    (((cmdArgs text).length < 2 ∨ validate_url (argStr (cmdArgs text)) = false) →
      (cmd_add text tid u cache reg addR).calls = [] ∧
      (cmd_add text tid u cache reg addR).cache = cache ∧
      (cmd_add text tid u cache reg addR).replies =
        [if (cmdArgs text).length < 2 then addUsageMsg else invalidUrlMsg]) ∧
    (((cmdArgs text).length < 2 ∨ pyIntParse (argStr (cmdArgs text)) = none) →
      (cmd_remove text tid u cache reg delR).calls = [] ∧
      (cmd_remove text tid u cache reg delR).cache = cache ∧
      (cmd_remove text tid u cache reg delR).replies =
        [if (cmdArgs text).length < 2 then removeUsageMsg else invalidIdMsg]) := by
  intro text tid u cache reg addR delR
  constructor
  · intro h
    by_cases hlen : (cmdArgs text).length < 2
    · simp [cmd_add, hlen]
    · rcases h with h | h
      · exact absurd h hlen
      · simp [cmd_add, hlen, h]
  · intro h
    by_cases hlen : (cmdArgs text).length < 2
    · simp [cmd_remove, hlen]
    · rcases h with h | h
      · exact absurd h hlen
      · simp [cmd_remove, hlen, h]

/-- C6 (witness): `/add` with no argument and `/remove` with a non-numeric
argument, concretely. -/
theorem C6_witness :
    (cmd_add (some "/add") 1 none [] (.ok "a") (.ok none)).calls = [] ∧
    (cmd_add (some "/add") 1 none [] (.ok "a") (.ok none)).replies = [addUsageMsg] ∧
    (cmd_remove (some "/remove xx") 1 none [] (.ok "a") (.ok ())).calls = [] ∧
    (cmd_remove (some "/remove xx") 1 none [] (.ok "a") (.ok ())).replies =
      [invalidIdMsg] := by
  have h1 := (C6_malformed_no_network (some "/add") 1 none [] (.ok "a") (.ok none)
    (.ok ())).1 (Or.inl (by decide))
  have h2 := (C6_malformed_no_network (some "/remove xx") 1 none [] (.ok "a") (.ok none)
    (.ok ())).2 (Or.inr (by decide))
  refine ⟨h1.1, ?_, h2.1, ?_⟩
  · have := h1.2.2
    simpa using this
  · have := h2.2.2
    simpa using this

/-- Head segment of a single-character Python split: everything before the
first occurrence of `c` (prefixed by the accumulated characters). -/
theorem pySplitGo_head (c : Char) :
    ∀ (fuel : Nat) (l acc : List Char), l.length ≤ fuel →
    (pySplitGo [c] fuel l acc).getD 0 [] = acc.reverse ++ l.takeWhile (fun a => a != c) := by
  intro fuel
  induction fuel with
  | zero =>
    intro l acc h
    have hl : l = [] := List.eq_nil_of_length_eq_zero (Nat.le_zero.mp h)
    subst hl
    simp [pySplitGo]
  | succ fuel ih =>
    intro l acc h
    cases l with
    | nil => simp [pySplitGo]
    | cons a rest =>
      by_cases hca : c = a
      · subst hca
        simp [pySplitGo, List.isPrefixOf, List.takeWhile_cons]
      · have hne : (c == a) = false := by simp [hca]
        have hf : rest.length ≤ fuel := by
          simp only [List.length_cons] at h
          omega
        have hne2 : (a != c) = true := by
          simp [bne]
          exact fun hh => hca hh.symm
        simp only [pySplitGo, List.isPrefixOf, hne, Bool.false_and, Bool.and_false,
          if_false, Bool.false_eq_true, ite_false]
        rw [ih rest (a :: acc) hf]
        simp [List.takeWhile_cons, hne2, List.append_assoc]

/-- Second segment of a single-character Python split: when `c` occurs in
`l`, `l.split(c)[1]` is the stretch strictly between the first occurrence
of `c` and the next one (to the end if there is no second occurrence). -/
theorem pySplitGo_second (c : Char) :
    ∀ (fuel : Nat) (l acc : List Char), l.length ≤ fuel → l.contains c = true →
    (pySplitGo [c] fuel l acc).getD 1 [] =
      ((l.dropWhile (fun a => a != c)).tail).takeWhile (fun a => a != c) := by
  intro fuel
  induction fuel with
  | zero =>
    intro l acc h hc
    have hl : l = [] := List.eq_nil_of_length_eq_zero (Nat.le_zero.mp h)
    subst hl
    simp at hc
  | succ fuel ih =>
    intro l acc h hc
    cases l with
    | nil => simp at hc
    | cons a rest =>
      have hf : rest.length ≤ fuel := by
        simp only [List.length_cons] at h
        omega
      by_cases hca : c = a
      · subst hca
        have hpre : [c].isPrefixOf (c :: rest) = true := by simp [List.isPrefixOf]
        simp only [pySplitGo, hpre, if_true]
        have hdrop : (c :: rest).drop ([c] : List Char).length = rest := by simp
        rw [hdrop]
        have hgd : (acc.reverse :: pySplitGo [c] fuel rest []).getD 1 [] =
            (pySplitGo [c] fuel rest []).getD 0 [] := by
          simp [List.getD]
        rw [hgd, pySplitGo_head c fuel rest [] hf]
        have hcc : (c != c) = false := by simp
        simp [List.dropWhile_cons, hcc]
      · have hne : (c == a) = false := by simp [hca]
        have hne2 : (a != c) = true := by
          simp [bne]
          exact fun hh => hca hh.symm
        have hcrest : rest.contains c = true := by
          simp only [List.contains_cons, hne, Bool.false_or] at hc
          exact hc
        simp only [pySplitGo, List.isPrefixOf, hne, Bool.false_and, Bool.and_false,
          if_false, Bool.false_eq_true, ite_false]
        rw [ih rest (a :: acc) hf hcrest]
        simp [List.dropWhile_cons, hne2]

/-- C4 (counterexample): the claim's cited example
`extractDisplayName("https://www.twitch.tv/shroud") == "shroud"` fails —
the URL does not contain the substring `"/tv/"` (only `".tv/"`), so the
function returns the URL unchanged; and the claim's `'@'` rule ("the
substring after the first `'@'`") fails on a URL with two `'@'`
characters, where `url.split('@')[1]` is only the stretch between the
first and second `'@'`. -/
theorem C4_counterexample :
    extract_channel_name "https://www.twitch.tv/shroud" = "https://www.twitch.tv/shroud" ∧
    extract_channel_name "https://www.twitch.tv/shroud" ≠ "shroud" ∧
    extract_channel_name "https://www.youtube.com/@a@b" = "@a" ∧
    extract_channel_name "https://www.youtube.com/@a@b" ≠ "@a@b" := by
  exact ⟨by decide, by decide, by decide, by decide⟩

/-- C4 (amended): `extractDisplayName("https://www.youtube.com/@MrBeast")`
is `"@MrBeast"`, while `extractDisplayName("https://www.twitch.tv/shroud")`
returns the URL unchanged (the URL contains no `'/tv/'`); the general
`'@'` rule is: if the URL contains `'@'`, the display name is `'@'`
followed by the characters strictly between the first `'@'` and the next
`'@'` (to the end of the string when there is no second `'@'`). -/
theorem C4_amended_extract :
    ∀ url : String,
    (url.data.contains '@' = true →
      extract_channel_name url =
        String.mk ('@' ::
          ((url.data.dropWhile (fun a => a != '@')).tail).takeWhile (fun a => a != '@'))) ∧
    extract_channel_name "https://www.youtube.com/@MrBeast" = "@MrBeast" ∧
    extract_channel_name "https://www.twitch.tv/shroud" = "https://www.twitch.tv/shroud" := by
  intro url
  refine ⟨?_, by decide, by decide⟩
  intro h
  simp only [extract_channel_name, h, if_true]
  rw [show pySplit ['@'] url.data = pySplitGo ['@'] url.data.length url.data [] from rfl,
    pySplitGo_second '@' url.data.length url.data [] (Nat.le_refl _) h]

/-- C4 (witness): the amended `'@'` rule evaluated at a concrete URL with
two `'@'` characters. -/
theorem C4_witness :
    extract_channel_name "https://www.youtube.com/@a@b" =
      String.mk ('@' ::
        ((("https://www.youtube.com/@a@b" : String).data.dropWhile
          (fun a => a != '@')).tail).takeWhile (fun a => a != '@')) :=
  (C4_amended_extract "https://www.youtube.com/@a@b").1 (by decide)

/-- Peeling a literal off the front of a match: checking a literal as
prefix and testing the remainder is the same as splitting the string. -/
theorem stripPre_iff (p l : List Char) (g : List Char → Bool) :
    (p.isPrefixOf l && g (l.drop p.length)) = true ↔ ∃ h, l = p ++ h ∧ g h = true := by
  constructor
  · intro hand
    rw [Bool.and_eq_true] at hand
    obtain ⟨hp, hg⟩ := hand
    obtain ⟨t, rfl⟩ := List.isPrefixOf_iff_prefix.mp hp
    rw [List.drop_left] at hg
    exact ⟨t, rfl, hg⟩
  · rintro ⟨h, rfl, hg⟩
    rw [Bool.and_eq_true]
    refine ⟨List.isPrefixOf_iff_prefix.mpr (List.prefix_append p h), ?_⟩
    rw [List.drop_left]
    exact hg

/-- `handleOk` spelled out. -/
theorem handleOk_iff (h : List Char) :
    handleOk h = true ↔ h ≠ [] ∧ ∀ c ∈ h, wordHyphen c = true := by
  simp [handleOk, List.all_eq_true, List.isEmpty_iff]

/-- The `$` anchor: the remainder matches `[\w-]+$` iff it is a good handle
or a good handle followed by one trailing newline. -/
theorem tailMatch_iff (rest : List Char) :
    tailMatch rest = true ↔
      handleOk rest = true ∨ ∃ core, rest = core ++ ['\n'] ∧ handleOk core = true := by
  unfold tailMatch
  constructor
  · intro ht
    rw [Bool.or_eq_true] at ht
    rcases ht with hOk | hm
    · exact Or.inl hOk
    · cases hg : rest.getLast? with
      | none => rw [hg] at hm; simp at hm
      | some ch =>
        rw [hg] at hm
        simp only [Bool.and_eq_true, decide_eq_true_eq] at hm
        obtain ⟨hch, hOk⟩ := hm
        subst hch
        have hmem : '\n' ∈ rest.getLast? := by rw [hg]; rfl
        have hrest := List.dropLast_append_getLast? '\n' hmem
        exact Or.inr ⟨rest.dropLast, hrest.symm, hOk⟩
  · intro hor
    rw [Bool.or_eq_true]
    rcases hor with hOk | ⟨core, rfl, hOk⟩
    · exact Or.inl hOk
    · right
      rw [List.getLast?_concat]
      simp [List.dropLast_concat, hOk]

/-- One expanded regex alternative matches iff the string is that literal
followed by a good handle, optionally with one trailing newline. -/
theorem reMatchOne_iff (p : String) (l : List Char) :
    reMatchOne p l = true ↔
      (∃ h, l = p.data ++ h ∧ handleOk h = true) ∨
      (∃ h, l = p.data ++ (h ++ ['\n']) ∧ handleOk h = true) := by
  unfold reMatchOne
  rw [stripPre_iff p.data l tailMatch]
  constructor
  · rintro ⟨h, rfl, ht⟩
    rcases (tailMatch_iff h).mp ht with hOk | ⟨core, rfl, hOk⟩
    · exact Or.inl ⟨h, rfl, hOk⟩
    · exact Or.inr ⟨core, rfl, hOk⟩
  · rintro (⟨h, rfl, hOk⟩ | ⟨h, rfl, hOk⟩)
    · exact ⟨h, rfl, (tailMatch_iff h).mpr (Or.inl hOk)⟩
    · exact ⟨h ++ ['\n'], rfl, (tailMatch_iff _).mpr (Or.inr ⟨h, rfl, hOk⟩)⟩

/-- The spec-side shape predicate agrees with its executable form. -/
theorem spec_shape_iff (s : String) : spec_shape s ↔ spec_shapeB s = true := by
  unfold spec_shape spec_shapeB
  rw [List.any_eq_true]
  constructor
  · rintro ⟨p, h, hp, heq, hne, hall⟩
    exact ⟨p, hp, (stripPre_iff p.data s.data handleOk).mpr
      ⟨h, heq, (handleOk_iff h).mpr ⟨hne, hall⟩⟩⟩
  · rintro ⟨p, hp, hb⟩
    obtain ⟨h, heq, hOk⟩ := (stripPre_iff p.data s.data handleOk).mp hb
    obtain ⟨hne, hall⟩ := (handleOk_iff h).mp hOk
    exact ⟨p, h, hp, heq, hne, hall⟩

/-- `validate_url` characterised against the spec's two shapes: it accepts
exactly the shape strings and the shape strings with one trailing newline
(Python's `$` anchor). -/
theorem validate_url_iff (s : String) :
    validate_url s = true ↔
      spec_shape s ∨ ∃ t : String, s.data = t.data ++ ['\n'] ∧ spec_shape t := by
  have hany : validate_url s = spec_shapes.any (fun p => reMatchOne p s.data) := by
    show validate_url s = (ytPres ++ twPres).any (fun p => reMatchOne p s.data)
    unfold validate_url youtubeMatch twitchMatch
    rw [List.any_append]
  rw [hany, List.any_eq_true]
  constructor
  · rintro ⟨p, hp, hm⟩
    rcases (reMatchOne_iff p s.data).mp hm with ⟨h, heq, hOk⟩ | ⟨h, heq, hOk⟩
    · obtain ⟨hne, hall⟩ := (handleOk_iff h).mp hOk
      exact Or.inl ⟨p, h, hp, heq, hne, hall⟩
    · obtain ⟨hne, hall⟩ := (handleOk_iff h).mp hOk
      refine Or.inr ⟨String.mk (p.data ++ h), ?_, p, h, hp, rfl, hne, hall⟩
      rw [heq, List.append_assoc]
  · rintro (⟨p, h, hp, heq, hne, hall⟩ | ⟨t, heq, p, h, hp, heqt, hne, hall⟩)
    · exact ⟨p, hp, (reMatchOne_iff p s.data).mpr
        (Or.inl ⟨h, heq, (handleOk_iff h).mpr ⟨hne, hall⟩⟩)⟩
    · refine ⟨p, hp, (reMatchOne_iff p s.data).mpr
        (Or.inr ⟨h, ?_, (handleOk_iff h).mpr ⟨hne, hall⟩⟩)⟩
      rw [heq, heqt, List.append_assoc]

/-- C8 (counterexample): the validator does not accept *exactly* the two
fixed shapes — Python's `$` anchor also matches just before a single
trailing newline, so a shape string followed by `"\n"` is accepted
although it does not match either shape. -/
theorem C8_counterexample :
    validate_url "https://www.youtube.com/@MrBeast\n" = true ∧
    ¬ spec_shape "https://www.youtube.com/@MrBeast\n" := by
  constructor
  · decide
  · rw [spec_shape_iff]
    decide

/-- C8 (amended): the validator accepts exactly the strings matching one
of the two fixed shapes `https?://(www.)?youtube.com/@<handle>` /
`https?://(www.)?twitch.tv/<handle>` (handle = one or more word/hyphen
characters), optionally followed by a single trailing newline; in
particular it accepts the two cited URLs and rejects the two cited
non-matching strings. -/
theorem C8_amended_validate :
    (∀ s : String, validate_url s = true ↔
      spec_shape s ∨ ∃ t : String, s.data = t.data ++ ['\n'] ∧ spec_shape t) ∧
    validate_url "https://www.youtube.com/@MrBeast" = true ∧
    validate_url "https://www.twitch.tv/shroud" = true ∧
    validate_url "https://youtube.com/channel/UCxxxx" = false ∧
    validate_url "ftp://twitch.tv/shroud" = false :=
  ⟨validate_url_iff, by decide, by decide, by decide, by decide⟩

/-- `listBlocks` renders one block per record. -/
theorem listBlocks_length (start : Nat) (subs : List SubRecord) :
    (listBlocks start subs).length = subs.length := by
  induction subs generalizing start with
  | nil => simp [listBlocks]
  | cons s rest ih => simp [listBlocks, ih]

/-- The `i`-th rendered block is the block of the `i`-th record at
sequence index `start + i`. -/
theorem listBlocks_getD (subs : List SubRecord) :
    ∀ (start i : Nat), i < subs.length →
    (listBlocks start subs).getD i "" =
      formatListBlock (start + i) (subs.getD i ⟨none, none, none⟩) := by
  induction subs with
  | nil =>
    intro start i h
    simp at h
  | cons s rest ih =>
    intro start i h
    cases i with
    | zero => simp [listBlocks]
    | succ i =>
      have hb : i < rest.length := by
        simp only [List.length_cons] at h
        omega
      simp only [listBlocks, List.getD_cons_succ]
      rw [ih (start + 1) i hb]
      congr 1
      omega

/-- C7 (confirmed): `/list` with zero backend records renders the
onboarding message (which differs from the populated-list rendering);
with `N > 0` records it renders one reply assembled from a header, one
block per record and a footer, where the `i`-th block (0-based) starts
with the 1-based sequence index `i + 1` — independent of backend
identifiers — and separately shows that record's backend identifier in an
`ID: <code>…</code>` fragment for use with `/remove`. -/
theorem C7_list_rendering :
    ∀ (tid : Int) (u : Option String) (cache : Cache) (a : String)
      (reg : Except CoreAPIError String) (subs : List SubRecord),
    cache.lookup tid = some a →
    (subs = [] → (cmd_list tid u cache reg (.ok subs)).replies = [onboardingMsg]) ∧
    (subs ≠ [] →
      (cmd_list tid u cache reg (.ok subs)).replies =
        [String.join (listHeaderMsg :: listBlocks 1 subs ++ [listFooterMsg subs.length])] ∧
      String.join (listHeaderMsg :: listBlocks 1 subs ++ [listFooterMsg subs.length]) ≠
        onboardingMsg) ∧
    (listBlocks 1 subs).length = subs.length ∧
    (∀ i : Nat, i < subs.length →
      (∃ rest, (listBlocks 1 subs).getD i "" = toString (i + 1) ++ ". " ++ rest) ∧
      (∃ pre post, (listBlocks 1 subs).getD i "" =
        pre ++ ("ID: <code>" ++ subIdStr (subs.getD i ⟨none, none, none⟩) ++ "</code>") ++
          post)) := by
  intro tid u cache a reg subs hlook
  refine ⟨?_, ?_, listBlocks_length 1 subs, ?_⟩
  · rintro rfl
    simp [cmd_list, get_or_create_account, hlook]
  · intro hne
    have hie : subs.isEmpty = false := by
      cases subs with
      | nil => exact absurd rfl hne
      | cons s t => rfl
    refine ⟨by simp [cmd_list, get_or_create_account, hlook, hie], ?_⟩
    intro heq
    have h1 : (String.join (listHeaderMsg :: listBlocks 1 subs ++
        [listFooterMsg subs.length])).data.head? = some '📋' := by
      rw [List.cons_append,
        strJoin_cons listHeaderMsg (listBlocks 1 subs ++ [listFooterMsg subs.length]),
        str_data_append]
      have h2 : listHeaderMsg.data.head? = some '📋' := by decide
      cases hld : listHeaderMsg.data with
      | nil => rw [hld] at h2; simp at h2
      | cons c t =>
        rw [hld] at h2
        simp only [List.head?_cons, Option.some.injEq] at h2
        subst h2
        rfl
    rw [heq] at h1
    have h3 : onboardingMsg.data.head? = some '📭' := by decide
    rw [h3] at h1
    exact absurd h1 (by decide)
  · intro i hi
    constructor
    · rw [listBlocks_getD subs 1 i hi, Nat.add_comm 1 i]
      exact ⟨_, rfl⟩
    · refine ⟨(toString (i + 1) ++ ". ") ++ blockMid (subs.getD i ⟨none, none, none⟩),
        "\n", ?_⟩
      rw [listBlocks_getD subs 1 i hi, Nat.add_comm 1 i]
      simp only [formatListBlock, strAppend_assoc]

/-- C7 (witness): the empty and one-record cases at concrete inputs. -/
theorem C7_witness :
    (cmd_list 7 none [(7, "a0")] (.error ⟨"x", none⟩) (.ok [])).replies = [onboardingMsg] ∧
    (cmd_list 7 none [(7, "a0")] (.error ⟨"x", none⟩)
        (.ok [⟨some "YOUTUBE", some "u", some 11⟩])).replies =
      [String.join (listHeaderMsg :: listBlocks 1 [⟨some "YOUTUBE", some "u", some 11⟩] ++
        [listFooterMsg 1])] := by
  constructor
  · exact (C7_list_rendering 7 none [(7, "a0")] "a0" (.error ⟨"x", none⟩) []
      (by decide)).1 rfl
  · exact ((C7_list_rendering 7 none [(7, "a0")] "a0" (.error ⟨"x", none⟩)
      [⟨some "YOUTUBE", some "u", some 11⟩] (by decide)).2.1 (by decide)).1

/-- C8 (witness): the amended validator facts at the two cited accepted
URLs. -/
theorem C8_witness :
    validate_url "https://www.youtube.com/@MrBeast" = true ∧
    validate_url "https://www.twitch.tv/shroud" = true :=
  ⟨C8_amended_validate.2.1, C8_amended_validate.2.2.1⟩
